import Mathlib

/-!
Verification development for `mcp_pipe.py` (a stdio ↔ WebSocket bridge with
per-target reconnection supervision).  The Python source is shallowly embedded:

* JSON configuration values are modelled by the inductive type `JVal`
  (numbers as integers, which covers every configuration field the program
  inspects);
* Python truthiness, `or`, `dict.get`, `dict` membership, `str(...)`,
  `.lower()`, `.items()` and iterable unpacking are modelled by `truthy`,
  `pyOr`, `entry_get`, `py_in`, `pyStr`, `str_lower`, `py_items`, `py_iter`;
* exceptions raised by the resolver and the orchestrator are modelled by the
  error type `PyError` whose constructors name the raise sites of
  `build_server_command` / `_main` (classified as in the design document);
* the process environment is a finite partial map `String → Option String`;
  `subprocess.Popen` consumes the environment as a mapping, so a partial map
  is the faithful abstraction of the copied-and-overlaid `os.environ` dict;
* the ambient filesystem (`os.path.exists`) and the JSON parser are external
  collaborators and enter as explicit parameters;
* the backoff loop of `connect_with_retry` is embedded as a state machine
  (`RetryState`, `retry_step`, `retry_run`) driven by the sequence of
  session attempt outcomes;
* the join behaviour of `await asyncio.gather(b1, b2, b3)` in
  `connect_to_server` is embedded over abstract bridge termination behaviours
  (`BridgeEnd`, `gather_returns`): gather returns at the first raised
  exception, or only once all three coroutines have finished; a bridge that
  stays blocked forever (e.g. in `websocket.recv`) never finishes.
-/

namespace McpPipe

/-- JSON values as loaded by `json.load` in `load_config`
    (src/mcp_pipe.py lines 172-182).  JSON numbers are modelled as integers;
    every field the program branches on is a string, boolean, object, array
    or null. -/
inductive JVal
  | null
  | bool (b : Bool)
  | num (n : Int)
  | str (s : String)
  | arr (xs : List JVal)
  | obj (fields : List (String × JVal))

/-- Classification of the exceptions raised by `build_server_command`
    (lines 185-240) and `_main` (lines 255-269).  `TypeErr` stands for the
    `TypeError`/`AttributeError` a mis-typed configuration value provokes. -/
inductive PyError
  | Disabled
  | MissingCommand
  | MissingURL (typ : String)
  | UnsupportedType (typ : String)
  | TargetNotFound
  | NoEnabled
  | TypeErr
deriving DecidableEq

/-- Python truthiness of a JSON-decoded value. -/
def truthy : JVal → Bool
  | JVal.null => false
  | JVal.bool b => b
  | JVal.num n => n != 0
  | JVal.str s => s != ""
  | JVal.arr xs => !xs.isEmpty
  | JVal.obj fs => !fs.isEmpty

/-- Python `a or b` on JSON-decoded values. -/
def pyOr (a b : JVal) : JVal := if truthy a then a else b

/-- Lookup of a key in a JSON object's field list (Python `dict` access;
    `json.load` produces unique keys, the first match is the binding). -/
def jLookup (fs : List (String × JVal)) (k : String) : Option JVal :=
  (fs.find? fun p => p.1 == k).map Prod.snd

/-- Python `entry.get(k)` on a dict decoded from JSON: the bound value, or
    `None` when the key is absent. -/
def entry_get (fs : List (String × JVal)) (k : String) : JVal :=
  (jLookup fs k).getD JVal.null

/-- Line 197: `cfg.get("mcpServers", {}) if isinstance(cfg, dict) else {}`. -/
def mcp_servers (cfg : JVal) : JVal :=
  match cfg with
  | JVal.obj fs => (jLookup fs "mcpServers").getD (JVal.obj [])
  | _ => JVal.obj []

/-- A single-quote character, used by `pyRepr` below. -/
def squo : String := String.singleton (Char.ofNat 39)

mutual

/-- Python `repr` of a JSON-decoded value (the fallback behaviour of
    `str(...)` on containers at line 208/228). -/
def pyRepr : JVal → String
  | JVal.null => "None"
  | JVal.bool true => "True"
  | JVal.bool false => "False"
  | JVal.num n => toString n
  | JVal.str s => squo ++ s ++ squo
  | JVal.arr xs => "[" ++ String.intercalate ", " (pyReprList xs) ++ "]"
  | JVal.obj fs => "\x7b" ++ String.intercalate ", " (pyReprFields fs) ++ "\x7d"

/-- Helper of `pyRepr` for array elements. -/
def pyReprList : List JVal → List String
  | [] => []
  | x :: t => pyRepr x :: pyReprList t

/-- Helper of `pyRepr` for object fields. -/
def pyReprFields : List (String × JVal) → List String
  | [] => []
  | (k, v) :: t => (squo ++ k ++ squo ++ ": " ++ pyRepr v) :: pyReprFields t

end

/-- Python `str(v)` of a JSON-decoded value (lines 208 and 228). -/
def pyStr : JVal → String
  | JVal.str s => s
  | v => pyRepr v

/-- Python `str.lower()`: lowercase every character (the transport-type
    strings compared by the program are ASCII). -/
def lower_str (s : String) : String := ⟨s.data.map Char.toLower⟩

/-- Python `.lower()` applied to the resolved transport-type value
    (line 203); raises on a non-string value. -/
def str_lower : JVal → Except PyError String
  | JVal.str s => Except.ok (lower_str s)
  | _ => Except.error PyError.TypeErr

/-- Line 203: `(entry.get("type") or entry.get("transportType") or
    "stdio").lower()`. -/
def resolved_type (efs : List (String × JVal)) : Except PyError String :=
  str_lower (pyOr (entry_get efs "type")
    (pyOr (entry_get efs "transportType") (JVal.str "stdio")))

/-- Python `.items()` on a value expected to be a dict (lines 207 and 227);
    raises on anything else. -/
def py_items : JVal → Except PyError (List (String × JVal))
  | JVal.obj fs => Except.ok fs
  | _ => Except.error PyError.TypeErr

/-- Python iterable unpacking `[*v]` (line 215): arrays yield their elements,
    strings their characters, dicts their keys; other values raise. -/
def py_iter : JVal → Except PyError (List JVal)
  | JVal.arr xs => Except.ok xs
  | JVal.str s => Except.ok (s.data.map fun c => JVal.str (String.singleton c))
  | JVal.obj fs => Except.ok (fs.map fun p => JVal.str p.1)
  | _ => Except.error PyError.TypeErr

/-- Contiguous-substring test on character lists (Python `a in b` for
    strings). -/
def is_sub_chars (a : List Char) : List Char → Bool
  | [] => a.isEmpty
  | c :: t => a.isPrefixOf (c :: t) || is_sub_chars a t

/-- Python `target in servers` (line 199) for a string `target`: key test on
    dicts, element test on lists, substring test on strings, `TypeError`
    otherwise. -/
def py_in (t : String) : JVal → Except PyError Bool
  | JVal.obj fs => Except.ok (jLookup fs t).isSome
  | JVal.arr xs =>
      Except.ok (xs.any fun x => match x with
        | JVal.str s => s == t
        | _ => false)
  | JVal.str s => Except.ok (is_sub_chars t.data s.data)
  | _ => Except.error PyError.TypeErr

/-- Assignment `child_env[k] = v` on the environment map (line 208); the
    ambient environment is copied, never mutated, because the map is a pure
    value. -/
def env_set (e : String → Option String) (k v : String) : String → Option String :=
  fun k2 => if k2 = k then some v else e k2

/-- Lines 206-208: `child_env = os.environ.copy()` followed by
    `child_env[str(k)] = str(v)` for each overlay pair, in order. -/
def apply_overlay (amb : String → Option String) (ov : List (String × String)) :
    String → Option String :=
  ov.foldl (fun e p => env_set e p.1 p.2) amb

/-- Lines 234-240: the back-compat fallback — treat the target as a script
    path, wrap it with the current interpreter, keep the ambient environment
    unchanged; raise when the path does not exist. -/
def script_fallback (fsx : String → Bool) (amb : String → Option String)
    (py target : String) : Except PyError (List JVal × (String → Option String)) :=
  if fsx target then Except.ok ([JVal.str py, JVal.str target], amb)
  else Except.error PyError.TargetNotFound

/-- Lines 200-232: resolution of a configured entry whose value (after
    `entry = servers[target] or {}`) is a dict with fields `efs`. -/
def resolve_entry_obj (amb : String → Option String) (py : String)
    (efs : List (String × JVal)) : Except PyError (List JVal × (String → Option String)) :=
  if truthy (entry_get efs "disabled") then Except.error PyError.Disabled
  else
    match resolved_type efs with
    | Except.error e => Except.error e
    | Except.ok typ =>
      match py_items (pyOr (entry_get efs "env") (JVal.obj [])) with
      | Except.error e => Except.error e
      | Except.ok ovs =>
        let child_env := apply_overlay amb (ovs.map fun p => (p.1, pyStr p.2))
        if typ = "stdio" then
          if truthy (entry_get efs "command") then
            match py_iter (pyOr (entry_get efs "args") (JVal.arr [])) with
            | Except.error e => Except.error e
            | Except.ok args => Except.ok (entry_get efs "command" :: args, child_env)
          else Except.error PyError.MissingCommand
        else if typ = "sse" ∨ typ = "http" ∨ typ = "streamablehttp" then
          if truthy (entry_get efs "url") then
            match py_items (pyOr (entry_get efs "headers") (JVal.obj [])) with
            | Except.error e => Except.error e
            | Except.ok hdrs =>
              Except.ok
                ((if typ = "http" ∨ typ = "streamablehttp" then
                    [JVal.str py, JVal.str "-m", JVal.str "mcp_proxy",
                     JVal.str "--transport", JVal.str "streamablehttp"]
                  else [JVal.str py, JVal.str "-m", JVal.str "mcp_proxy"]) ++
                 (hdrs.map fun p => [JVal.str "-H", JVal.str p.1,
                   JVal.str (pyStr p.2)]).flatten ++
                 [entry_get efs "url"], child_env)
          else Except.error (PyError.MissingURL typ)
        else Except.error (PyError.UnsupportedType typ)

/-- Lines 185-240, `build_server_command`: the command resolver.  `cfg` is
    the value returned by `load_config`, `fsx` the ambient `os.path.exists`,
    `amb` the ambient `os.environ`, `py` the interpreter `sys.executable`.
    The function is pure: resolving twice with the same arguments is the
    same value, and `amb` is only read. -/
def build_server_command (cfg : JVal) (fsx : String → Bool)
    (amb : String → Option String) (py target : String) :
    Except PyError (List JVal × (String → Option String)) :=
  match mcp_servers cfg with
  | JVal.obj srv =>
    match jLookup srv target with
    | some entry0 =>
      match pyOr entry0 (JVal.obj []) with
      | JVal.obj efs => resolve_entry_obj amb py efs
      | _ => Except.error PyError.TypeErr
    | none => script_fallback fsx amb py target
  | srvv =>
    match py_in target srvv with
    | Except.error e => Except.error e
    | Except.ok true => Except.error PyError.TypeErr
    | Except.ok false => script_fallback fsx amb py target

/-- Lines 74-83 of `connect_to_server`: `subprocess.Popen` runs only when
    `build_server_command` returns instead of raising, so a session spawns a
    child process exactly when resolution succeeds. -/
def session_spawns (cfg : JVal) (fsx : String → Bool)
    (amb : String → Option String) (py target : String) : Bool :=
  match build_server_command cfg fsx amb py target with
  | Except.ok _ => true
  | Except.error _ => false

/-- Lines 172-182, `load_config`.  The filesystem and the JSON parser are
    external: `config_exists` says whether the configured path exists, and
    `parsed` is `some v` when opening and parsing yields the value `v`, and
    `none` when opening or parsing raises (the `except` branch, which logs a
    warning and returns `{}`). -/
def load_config (config_exists : Bool) (parsed : Option JVal) : JVal :=
  if config_exists then
    match parsed with
    | some v => v
    | none => JVal.obj []
  else JVal.obj []

/-- Line 260: the list comprehension computing the enabled server names, in
    configuration order; a mis-typed entry raises (AttributeError on
    `.get`). -/
def filter_enabled : List (String × JVal) → Except PyError (List String)
  | [] => Except.ok []
  | (name, entry) :: rest =>
    match pyOr entry (JVal.obj []) with
    | JVal.obj efs =>
      match filter_enabled rest with
      | Except.error e => Except.error e
      | Except.ok tail =>
        Except.ok (if truthy (entry_get efs "disabled") then tail else name :: tail)
    | _ => Except.error PyError.TypeErr

/-- Lines 256-266 of `_main` in all-targets mode: compute the enabled target
    set, raising `RuntimeError("No enabled mcpServers found in config")` when
    it is empty. -/
def run_all_enabled (cfg : JVal) : Except PyError (List String) :=
  match cfg with
  | JVal.obj cfs =>
    match pyOr ((jLookup cfs "mcpServers").getD JVal.null) (JVal.obj []) with
    | JVal.obj srv =>
      match filter_enabled srv with
      | Except.error e => Except.error e
      | Except.ok enabled =>
        if enabled.isEmpty then Except.error PyError.NoEnabled
        else Except.ok enabled
    | _ => Except.error PyError.TypeErr
  | _ => Except.error PyError.TypeErr

/-- Observable outcome of the `__main__` block: either the interpreter exits
    with a status code, or the program keeps running supervisors forever;
    in both cases the number of supervisor sessions started is recorded. -/
inductive MainOutcome
  | exits (code : Nat) (sessions : Nat)
  | runs_forever (sessions : Nat)
deriving DecidableEq

/-- Lines 242-282, the `__main__` block.  A missing endpoint exits 1
    (line 250).  With a positional argument, an existing path runs one
    supervisor forever, otherwise `sys.exit(1)` inside `_main` raises
    `SystemExit`, which `except Exception` does not catch, so the process
    exits 1.  Without an argument, an empty enabled set (or a mis-typed
    configuration) raises an `Exception`, which the top-level handler at
    lines 281-282 catches and logs; control then falls off the end of the
    module, so the interpreter exits with status 0.  A non-empty enabled set
    starts one supervisor task per enabled target and gathers them forever. -/
def py_main (endpoint : Option String) (arg : Option String) (cfg : JVal)
    (fsx : String → Bool) : MainOutcome :=
  match endpoint with
  | none => MainOutcome.exits 1 0
  | some _ =>
    match arg with
    | some t => if fsx t then MainOutcome.runs_forever 1 else MainOutcome.exits 1 0
    | none =>
      match run_all_enabled cfg with
      | Except.error _ => MainOutcome.exits 0 0
      | Except.ok enabled => MainOutcome.runs_forever enabled.length

/-- Line 44: initial wait time in seconds. -/
def INITIAL_BACKOFF : Nat := 1

/-- Line 45: maximum wait time in seconds. -/
def MAX_BACKOFF : Nat := 600

/-- The mutable state of `connect_with_retry` (lines 47-64):
    `reconnect_attempt` and `backoff`. -/
structure RetryState where
  reconnect_attempt : Nat
  backoff : Nat
deriving DecidableEq

/-- Outcome of one `connect_to_server` attempt as seen by the retry loop:
    either the call returns normally or it raises. -/
inductive AttemptOutcome
  | success
  | failure
deriving DecidableEq

/-- Lines 49-50: state at loop entry. -/
def retry_init : RetryState := ⟨0, INITIAL_BACKOFF⟩

/-- Lines 53-55: the delay slept before the attempt made from state `s`
    (`none` when `reconnect_attempt = 0`, i.e. no sleep before the initial
    attempt). -/
def sleep_before (s : RetryState) : Option Nat :=
  if s.reconnect_attempt > 0 then some s.backoff else none

/-- Lines 58-64: state update after one attempt.  A normal return leaves the
    state unchanged; an exception increments the attempt count and doubles
    the backoff, capped at `MAX_BACKOFF`. -/
def retry_step (s : RetryState) : AttemptOutcome → RetryState
  | AttemptOutcome.success => s
  | AttemptOutcome.failure =>
      ⟨s.reconnect_attempt + 1, min (s.backoff * 2) MAX_BACKOFF⟩

/-- The retry-loop state after processing a sequence of attempt outcomes,
    starting from `retry_init`. -/
def retry_run (os : List AttemptOutcome) : RetryState :=
  os.foldl retry_step retry_init

/-- Termination behaviour of one stream bridge coroutine of a session: it
    may finish cleanly at some time (the `break` on EOF in
    `pipe_process_to_websocket` / `pipe_process_stderr_to_terminal`), raise
    at some time, or stay blocked forever (e.g. `websocket.recv` in
    `pipe_websocket_to_process` when no message ever arrives on an open
    socket). -/
inductive BridgeEnd
  | never
  | eof (t : Nat)
  | err (t : Nat)

/-- The time at which a bridge stops running on its own, if ever. -/
def bridge_done_time : BridgeEnd → Option Nat
  | BridgeEnd.never => none
  | BridgeEnd.eof t => some t
  | BridgeEnd.err t => some t

/-- The time at which a bridge raises, if ever. -/
def err_time : BridgeEnd → Option Nat
  | BridgeEnd.err t => some t
  | _ => none

/-- Minimum of two optional times (`none` = never). -/
def omin : Option Nat → Option Nat → Option Nat
  | none, b => b
  | some a, none => some a
  | some a, some b => some (min a b)

/-- Earliest raise among the three bridges, if any. -/
def first_err (b1 b2 b3 : BridgeEnd) : Option Nat :=
  omin (err_time b1) (omin (err_time b2) (err_time b3))

/-- Earliest termination among the three bridges, if any — the moment the
    design document's first-to-finish rule would end the session. -/
def first_end (b1 b2 b3 : BridgeEnd) : Option Nat :=
  omin (bridge_done_time b1) (omin (bridge_done_time b2) (bridge_done_time b3))

/-- Line 87, `await asyncio.gather(b1, b2, b3)` with default
    `return_exceptions=False`: the await returns at the first raised
    exception, and otherwise only when all three coroutines have finished.
    A clean first termination does not cancel or unblock the siblings. -/
def gather_returns (b1 b2 b3 : BridgeEnd) : Option Nat :=
  match first_err b1 b2 b3 with
  | some t => some t
  | none =>
    match bridge_done_time b1, bridge_done_time b2, bridge_done_time b3 with
    | some t1, some t2, some t3 => some (max t1 (max t2 t3))
    | _, _, _ => none

/-- The session of `connect_to_server` (lines 86-107) reaches its `finally`
    teardown (terminate the process, close the socket) exactly when the
    gather returns. -/
def session_terminates (b1 b2 b3 : BridgeEnd) : Bool :=
  (gather_returns b1 b2 b3).isSome

/-- Modelled from the claim wording (spec side, for comparison with
    `resolved_type`): take the first of the two fields that is present and
    non-empty, defaulting to stdio, compared case-insensitively. -/
def first_nonempty (o : Option String) (d : String) : String :=
  match o with
  | some s => if s = "" then d else s
  | none => d

/-- Modelled from the claim wording (spec side): the transport type used for
    resolution, per claim C10. -/
def spec_transport_type (ty tt : Option String) : String :=
  lower_str (first_nonempty ty (first_nonempty tt "stdio"))

/-! ### Helper lemmas -/

/-- Python's `x or {}` leaves a dict unchanged: an empty dict is falsy but
    the default is the empty dict again. -/
theorem pyOr_obj (l : List (String × JVal)) :
    pyOr (JVal.obj l) (JVal.obj []) = JVal.obj l := by
  cases l <;> simp [pyOr, truthy]

/-- Keys outside the overlay are untouched by `apply_overlay`. -/
theorem apply_overlay_notmem (ov : List (String × String)) :
    ∀ (amb : String → Option String) (k : String),
      k ∉ ov.map Prod.fst → apply_overlay amb ov k = amb k := by
  induction ov with
  | nil => intro amb k _; rfl
  | cons a t ih =>
    intro amb k h
    simp only [List.map_cons, List.mem_cons, not_or] at h
    have h2 := ih (env_set amb a.1 a.2) k h.2
    have h3 : apply_overlay amb (a :: t) = apply_overlay (env_set amb a.1 a.2) t := rfl
    rw [h3, h2, env_set, if_neg h.1]

/-- Keys in the overlay (unique-key overlays, as produced by `json.load`)
    come out bound to their overlay value. -/
theorem apply_overlay_mem (ov : List (String × String)) :
    ∀ (amb : String → Option String) (k v : String),
      (ov.map Prod.fst).Nodup → (k, v) ∈ ov → apply_overlay amb ov k = some v := by
  induction ov with
  | nil => intro amb k v _ h; cases h
  | cons a t ih =>
    intro amb k v hnd hm
    rw [List.map_cons, List.nodup_cons] at hnd
    have h3 : apply_overlay amb (a :: t) = apply_overlay (env_set amb a.1 a.2) t := rfl
    rcases List.mem_cons.mp hm with he | ht
    · cases he
      rw [h3, apply_overlay_notmem t _ k hnd.1]
      simp [env_set]
    · rw [h3]
      exact ih _ k v hnd.2 ht

/-- The retry state after `k` consecutive failures: attempt count `k`,
    backoff `min (2^k) 600`. -/
theorem retry_run_failures (k : Nat) :
    retry_run (List.replicate k AttemptOutcome.failure) =
      ⟨k, min (INITIAL_BACKOFF * 2 ^ k) MAX_BACKOFF⟩ := by
  induction k with
  | zero => decide
  | succ k ih =>
    have h : retry_run (List.replicate (k + 1) AttemptOutcome.failure) =
        retry_step (retry_run (List.replicate k AttemptOutcome.failure))
          AttemptOutcome.failure := by
      rw [List.replicate_succ']
      simp [retry_run, List.foldl_append]
    rw [h, ih]
    simp only [retry_step, RetryState.mk.injEq, INITIAL_BACKOFF, MAX_BACKOFF,
      one_mul, pow_succ, true_and]
    generalize (2 : Nat) ^ k = a
    simp only [Nat.min_def]
    split_ifs <;> omega

/-- The backoff field stays between `INITIAL_BACKOFF` and `MAX_BACKOFF`
    along any outcome sequence. -/
theorem backoff_bounds_aux (os : List AttemptOutcome) :
    ∀ s : RetryState,
      INITIAL_BACKOFF ≤ s.backoff → s.backoff ≤ MAX_BACKOFF →
      INITIAL_BACKOFF ≤ (os.foldl retry_step s).backoff ∧
        (os.foldl retry_step s).backoff ≤ MAX_BACKOFF := by
  induction os with
  | nil => intro s h1 h2; exact ⟨h1, h2⟩
  | cons o t ih =>
    intro s h1 h2
    cases o with
    | success => exact ih s h1 h2
    | failure =>
      apply ih
      · simp only [retry_step, INITIAL_BACKOFF, MAX_BACKOFF, Nat.min_def] at *
        split_ifs <;> omega
      · simp only [retry_step, INITIAL_BACKOFF, MAX_BACKOFF, Nat.min_def] at *
        split_ifs <;> omega

/-- An all-disabled (or empty) server table filters to the empty enabled
    list. -/
theorem filter_enabled_all_disabled (srv : List (String × JVal))
    (h : ∀ p ∈ srv, ∃ efs : List (String × JVal),
      pyOr p.2 (JVal.obj []) = JVal.obj efs ∧
        truthy (entry_get efs "disabled") = true) :
    filter_enabled srv = Except.ok [] := by
  induction srv with
  | nil => rfl
  | cons a t ih =>
    obtain ⟨efs, h1, h2⟩ := h a (List.mem_cons_self a t)
    have ht := ih fun p hp => h p (List.mem_cons_of_mem a hp)
    cases a with
    | mk name entry =>
      simp only at h1
      simp only [filter_enabled, h1, ht, h2, if_true]

/-! ### Claim theorems -/

/-- Claim C1 (code evaluation at the failing input): a session whose child
    closes stdout and stderr immediately (both forward bridges finish
    cleanly at time 0) while the socket-to-stdin bridge stays blocked in
    `websocket.recv` forever has a first bridge termination at time 0, yet
    `asyncio.gather` never returns, so `connect_to_server` never reaches its
    teardown: the session hangs instead of cancelling the remaining bridges
    and terminating in bounded time. -/
theorem session_hangs_on_stdout_eof :
    first_end BridgeEnd.never (BridgeEnd.eof 0) (BridgeEnd.eof 0) = some 0 ∧
    session_terminates BridgeEnd.never (BridgeEnd.eof 0) (BridgeEnd.eof 0) = false := by
  constructor <;> rfl

/-- Claim C2 (counterexample): after one connectivity failure, the delay the
    supervisor sleeps before the first reconnection attempt is 2 seconds,
    not `min (INITIAL_BACKOFF * 2^(1-1)) MAX_BACKOFF = 1` as the claim
    states — the loop doubles `backoff` when it records the failure, before
    the value is ever slept. -/
theorem backoff_growth_first_delay_ce :
    sleep_before (retry_run (List.replicate 1 AttemptOutcome.failure)) ≠
      some (min (INITIAL_BACKOFF * 2 ^ (1 - 1)) MAX_BACKOFF) := by
  decide

/-- Claim C2 (amended): after `k ≥ 1` consecutive failures with no
    intervening success, the delay slept before the `k`-th reconnection
    attempt equals `min (INITIAL_BACKOFF * 2^k) MAX_BACKOFF` — one doubling
    ahead of the claimed `2^(k-1)` schedule. -/
theorem backoff_growth (k : Nat) (hk : 1 ≤ k) :
    sleep_before (retry_run (List.replicate k AttemptOutcome.failure)) =
      some (min (INITIAL_BACKOFF * 2 ^ k) MAX_BACKOFF) := by
  rw [retry_run_failures, sleep_before, if_pos]
  exact hk

/-- Claim C2 witness: the amended schedule at `k = 1`. -/
theorem backoff_growth_witness :
    sleep_before (retry_run (List.replicate 1 AttemptOutcome.failure)) =
      some (min (INITIAL_BACKOFF * 2 ^ 1) MAX_BACKOFF) :=
  backoff_growth 1 (by decide)

/-- Claim C3 (counterexample): after the history failure → success →
    failure, the delay slept before the next attempt is 4 seconds, not
    `INITIAL_BACKOFF = 1`: the successful session did not reset the
    escalated backoff. -/
theorem backoff_reset_ce :
    sleep_before (retry_run
        [AttemptOutcome.failure, AttemptOutcome.success, AttemptOutcome.failure]) =
      some 4 ∧ (4 : Nat) ≠ INITIAL_BACKOFF := by
  decide

/-- Claim C3 (amended): a successful session leaves the retry state
    completely unchanged — `connect_with_retry` never resets `backoff` or
    `reconnect_attempt` — so after failure → success → failure the delay
    continues the escalated schedule at
    `min (INITIAL_BACKOFF * 2^2) MAX_BACKOFF = 4`. -/
theorem backoff_no_reset :
    (∀ s : RetryState, retry_step s AttemptOutcome.success = s) ∧
    sleep_before (retry_run
        [AttemptOutcome.failure, AttemptOutcome.success, AttemptOutcome.failure]) =
      some (min (INITIAL_BACKOFF * 2 ^ 2) MAX_BACKOFF) := by
  exact ⟨fun s => rfl, by decide⟩

/-- Claim C8: at every reachable state of the retry loop the backoff is at
    least the initial value and never exceeds the cap `MAX_BACKOFF = 600`,
    and one further attempt (failed or not) never decreases it — so within
    a failure run the successive delays are monotonically non-decreasing. -/
theorem backoff_invariant (os : List AttemptOutcome) (o : AttemptOutcome) :
    (retry_run os).backoff ≤ (retry_run (os ++ [o])).backoff ∧
    INITIAL_BACKOFF ≤ (retry_run os).backoff ∧
    (retry_run os).backoff ≤ MAX_BACKOFF ∧ MAX_BACKOFF = 600 := by
  have hb := backoff_bounds_aux os retry_init (le_refl _) (by decide)
  refine ⟨?_, hb.1, hb.2, rfl⟩
  have h : retry_run (os ++ [o]) = retry_step (retry_run os) o := by
    simp [retry_run, List.foldl_append]
  rw [h]
  cases o with
  | success => exact le_refl _
  | failure =>
    have h2 : (retry_run os).backoff ≤ MAX_BACKOFF := hb.2
    simp only [retry_step]
    simp only [MAX_BACKOFF, Nat.min_def] at h2 ⊢
    split_ifs <;> omega

/-- Claim C9: `load_config` is total (it never raises): a missing file
    yields `{}`, a file that fails to open or parse also yields `{}`, and
    the two cases are indistinguishable at the public interface. -/
theorem load_config_total (parsed : Option JVal) :
    load_config false parsed = JVal.obj [] ∧
    load_config true none = JVal.obj [] ∧
    load_config false parsed = load_config true none :=
  ⟨rfl, rfl, rfl⟩

/-- Projecting the keys out of the string-converted overlay gives the
    original overlay keys. -/
theorem map_fst_pystr (ovs : List (String × JVal)) :
    (ovs.map fun p => (p.1, pyStr p.2)).map Prod.fst = ovs.map Prod.fst := by
  rw [List.map_map]
  rfl

/-- Claim C4 (counterexample): in all-targets mode against a configuration
    whose only entry is disabled, the program starts zero sessions but the
    process exits with status 0, not status 1 as claimed: the
    `RuntimeError` is caught by the top-level `except Exception` handler,
    logged, and control falls off the end of the module. -/
theorem all_disabled_exit_ce :
    py_main (some "ws://endpoint") none
        (JVal.obj [("mcpServers",
          JVal.obj [("a", JVal.obj [("disabled", JVal.bool true)])])])
        (fun _ => false) = MainOutcome.exits 0 0 ∧
    MainOutcome.exits 0 0 ≠ MainOutcome.exits 1 0 :=
  ⟨rfl, by decide⟩

/-- Claim C4 (amended): in all-targets mode, when every `mcpServers` entry
    is disabled (or there are no entries), the program starts zero sessions,
    logs the `No enabled mcpServers` error, and exits with status 0. -/
theorem all_disabled_exits_zero (ep : String) (fsx : String → Bool)
    (cfs srv : List (String × JVal))
    (hs : pyOr ((jLookup cfs "mcpServers").getD JVal.null) (JVal.obj []) = JVal.obj srv)
    (hall : ∀ p ∈ srv, ∃ efs : List (String × JVal),
      pyOr p.2 (JVal.obj []) = JVal.obj efs ∧
        truthy (entry_get efs "disabled") = true) :
    py_main (some ep) none (JVal.obj cfs) fsx = MainOutcome.exits 0 0 := by
  have hf := filter_enabled_all_disabled srv hall
  simp only [py_main, run_all_enabled, hs, hf, List.isEmpty_nil, if_true]

/-- Claim C4 witness: a configuration with an empty `mcpServers` table. -/
theorem all_disabled_exits_zero_witness :
    py_main (some "ws://endpoint") none (JVal.obj [("mcpServers", JVal.obj [])])
        (fun _ => false) = MainOutcome.exits 0 0 :=
  all_disabled_exits_zero "ws://endpoint" (fun _ => false)
    [("mcpServers", JVal.obj [])] [] rfl
    (fun p hp => absurd hp (List.not_mem_nil p))

/-- Claim C5: an explicit bridge attempt at a target whose configured entry
    has a truthy `disabled` flag fails with the `Disabled` classification,
    and the session never spawns a child process, because
    `build_server_command` raises before `subprocess.Popen` runs. -/
theorem disabled_target_not_spawned (cfg : JVal) (fsx : String → Bool)
    (amb : String → Option String) (py target : String)
    (srv efs : List (String × JVal))
    (hs : mcp_servers cfg = JVal.obj srv)
    (ht : jLookup srv target = some (JVal.obj efs))
    (hd : truthy (entry_get efs "disabled") = true) :
    build_server_command cfg fsx amb py target = Except.error PyError.Disabled ∧
    session_spawns cfg fsx amb py target = false := by
  have h1 : build_server_command cfg fsx amb py target = Except.error PyError.Disabled := by
    simp only [build_server_command, hs, ht, pyOr_obj, resolve_entry_obj, hd, if_true]
  exact ⟨h1, by simp only [session_spawns, h1]⟩

/-- Claim C5 witness: a concrete configuration with one disabled target. -/
theorem disabled_target_not_spawned_witness :
    build_server_command
        (JVal.obj [("mcpServers",
          JVal.obj [("tool", JVal.obj [("disabled", JVal.bool true)])])])
        (fun _ => false) (fun _ => (none : Option String)) "python" "tool" =
      Except.error PyError.Disabled ∧
    session_spawns
        (JVal.obj [("mcpServers",
          JVal.obj [("tool", JVal.obj [("disabled", JVal.bool true)])])])
        (fun _ => false) (fun _ => (none : Option String)) "python" "tool" = false :=
  disabled_target_not_spawned
    (JVal.obj [("mcpServers",
      JVal.obj [("tool", JVal.obj [("disabled", JVal.bool true)])])])
    (fun _ => false) (fun _ => (none : Option String)) "python" "tool"
    [("tool", JVal.obj [("disabled", JVal.bool true)])]
    [("disabled", JVal.bool true)] rfl rfl rfl

/-- Claim C6: resolving a stdio target is pure and deterministic — the same
    arguments give the same command list and child environment — and the
    child environment is the ambient environment with each overlay key bound
    to its (string-converted) overlay value and every other key unchanged;
    the ambient environment itself is a read-only input and is never
    mutated. -/
theorem stdio_resolution_purity (cfg : JVal) (fsx : String → Bool)
    (amb : String → Option String) (py target : String)
    (srv efs ovs : List (String × JVal)) (cmdv : JVal) (argsl : List JVal)
    (hs : mcp_servers cfg = JVal.obj srv)
    (ht : jLookup srv target = some (JVal.obj efs))
    (hd : truthy (entry_get efs "disabled") = false)
    (hty : resolved_type efs = Except.ok "stdio")
    (henv : py_items (pyOr (entry_get efs "env") (JVal.obj [])) = Except.ok ovs)
    (hcmd : entry_get efs "command" = cmdv)
    (hct : truthy cmdv = true)
    (hargs : py_iter (pyOr (entry_get efs "args") (JVal.arr [])) = Except.ok argsl) :
    build_server_command cfg fsx amb py target =
      Except.ok (cmdv :: argsl, apply_overlay amb (ovs.map fun p => (p.1, pyStr p.2))) ∧
    build_server_command cfg fsx amb py target = build_server_command cfg fsx amb py target ∧
    (∀ k v : String, (ovs.map Prod.fst).Nodup → (k, JVal.str v) ∈ ovs →
      apply_overlay amb (ovs.map fun p => (p.1, pyStr p.2)) k = some v) ∧
    (∀ k : String, k ∉ ovs.map Prod.fst →
      apply_overlay amb (ovs.map fun p => (p.1, pyStr p.2)) k = amb k) := by
  refine ⟨?_, rfl, ?_, ?_⟩
  · simp [build_server_command, hs, ht, pyOr_obj, resolve_entry_obj, hd, hty, henv,
      hcmd, hct, hargs]
  · intro k v hnd hm
    have hm2 : (k, v) ∈ ovs.map fun p => (p.1, pyStr p.2) := by
      have h := List.mem_map_of_mem (fun p => (p.1, pyStr p.2)) hm
      simpa [pyStr] using h
    have hnd2 : ((ovs.map fun p => (p.1, pyStr p.2)).map Prod.fst).Nodup := by
      rw [map_fst_pystr]
      exact hnd
    exact apply_overlay_mem _ amb k v hnd2 hm2
  · intro k hk
    have hk2 : k ∉ (ovs.map fun p => (p.1, pyStr p.2)).map Prod.fst := by
      rw [map_fst_pystr]
      exact hk
    exact apply_overlay_notmem _ amb k hk2

/-- Claim C6 witness: a stdio target with overlay `X ↦ "1"`; the child
    environment binds `X` to `"1"`, and the resolution result is exactly
    the command plus the overlaid copy of the ambient environment. -/
theorem stdio_resolution_purity_witness :
    build_server_command
        (JVal.obj [("mcpServers", JVal.obj [("t",
          JVal.obj [("command", JVal.str "node"),
            ("args", JVal.arr [JVal.str "a.js"]),
            ("env", JVal.obj [("X", JVal.str "1")])])])])
        (fun _ => false) (fun _ => (none : Option String)) "python" "t" =
      Except.ok (JVal.str "node" :: [JVal.str "a.js"],
        apply_overlay (fun _ => (none : Option String))
          ([("X", JVal.str "1")].map fun p => (p.1, pyStr p.2))) ∧
    apply_overlay (fun _ => (none : Option String))
        ([("X", JVal.str "1")].map fun p => (p.1, pyStr p.2)) "X" = some "1" :=
  ⟨(stdio_resolution_purity
      (JVal.obj [("mcpServers", JVal.obj [("t",
        JVal.obj [("command", JVal.str "node"),
          ("args", JVal.arr [JVal.str "a.js"]),
          ("env", JVal.obj [("X", JVal.str "1")])])])])
      (fun _ => false) (fun _ => (none : Option String)) "python" "t"
      [("t", JVal.obj [("command", JVal.str "node"),
        ("args", JVal.arr [JVal.str "a.js"]),
        ("env", JVal.obj [("X", JVal.str "1")])])]
      [("command", JVal.str "node"), ("args", JVal.arr [JVal.str "a.js"]),
        ("env", JVal.obj [("X", JVal.str "1")])]
      [("X", JVal.str "1")] (JVal.str "node") [JVal.str "a.js"]
      rfl rfl rfl rfl rfl rfl rfl rfl).1,
   (stdio_resolution_purity
      (JVal.obj [("mcpServers", JVal.obj [("t",
        JVal.obj [("command", JVal.str "node"),
          ("args", JVal.arr [JVal.str "a.js"]),
          ("env", JVal.obj [("X", JVal.str "1")])])])])
      (fun _ => false) (fun _ => (none : Option String)) "python" "t"
      [("t", JVal.obj [("command", JVal.str "node"),
        ("args", JVal.arr [JVal.str "a.js"]),
        ("env", JVal.obj [("X", JVal.str "1")])])]
      [("command", JVal.str "node"), ("args", JVal.arr [JVal.str "a.js"]),
        ("env", JVal.obj [("X", JVal.str "1")])]
      [("X", JVal.str "1")] (JVal.str "node") [JVal.str "a.js"]
      rfl rfl rfl rfl rfl rfl rfl rfl).2.2.1 "X" "1" (by simp)
     (List.mem_cons_self _ _)⟩

/-- Claim C7: a target absent from the `mcpServers` mapping resolves via the
    script-path fallback: if the path exists the command is
    `[interpreter, path]` with the ambient environment returned unchanged,
    otherwise resolution fails with `TargetNotFound`; resolution is a pure
    function either way. -/
theorem fallback_resolution (cfg : JVal) (fsx : String → Bool)
    (amb : String → Option String) (py target : String)
    (srv : List (String × JVal))
    (hs : mcp_servers cfg = JVal.obj srv)
    (ht : jLookup srv target = none) :
    build_server_command cfg fsx amb py target =
      if fsx target then Except.ok ([JVal.str py, JVal.str target], amb)
      else Except.error PyError.TargetNotFound := by
  simp only [build_server_command, hs, ht, script_fallback]

/-- Claim C7 witness: an empty configuration and an existing script path. -/
theorem fallback_resolution_witness :
    build_server_command (JVal.obj []) (fun _ => true)
        (fun _ => (none : Option String)) "python3" "server.py" =
      if (fun _ => true) "server.py" then
        Except.ok ([JVal.str "python3", JVal.str "server.py"],
          fun _ => (none : Option String))
      else Except.error PyError.TargetNotFound :=
  fallback_resolution (JVal.obj []) (fun _ => true)
    (fun _ => (none : Option String)) "python3" "server.py" [] rfl rfl

/-- Claim C10: the transport type used for resolution equals the spec-side
    rule `spec_transport_type` — the `type` field when present and
    non-empty, else `transportType` when present and non-empty, else
    `"stdio"`, lowercased so the comparison is case-insensitive; an entry
    with neither field resolves as `"stdio"`, and such an entry without a
    usable `command` makes `build_server_command` fail with
    `MissingCommand`. -/
theorem transport_type_rule (efs : List (String × JVal)) (ty tt : Option String)
    (hty : jLookup efs "type" = Option.map JVal.str ty)
    (htt : jLookup efs "transportType" = Option.map JVal.str tt) :
    resolved_type efs = Except.ok (spec_transport_type ty tt) ∧
    (ty = none → tt = none → resolved_type efs = Except.ok "stdio") ∧
    (∀ (cfg : JVal) (fsx : String → Bool) (amb : String → Option String)
       (py target : String) (srv ovs : List (String × JVal)),
       mcp_servers cfg = JVal.obj srv → jLookup srv target = some (JVal.obj efs) →
       ty = none → tt = none →
       truthy (entry_get efs "disabled") = false →
       py_items (pyOr (entry_get efs "env") (JVal.obj [])) = Except.ok ovs →
       truthy (entry_get efs "command") = false →
       build_server_command cfg fsx amb py target =
         Except.error PyError.MissingCommand) := by
  have key : pyOr (entry_get efs "type")
      (pyOr (entry_get efs "transportType") (JVal.str "stdio")) =
      JVal.str (first_nonempty ty (first_nonempty tt "stdio")) := by
    rw [entry_get, entry_get, hty, htt]
    cases ty with
    | none =>
      cases tt with
      | none => rfl
      | some t =>
        by_cases h : t = ""
        · subst h; rfl
        · simp [pyOr, truthy, first_nonempty, h]
    | some s =>
      by_cases h : s = ""
      · subst h
        cases tt with
        | none => rfl
        | some t =>
          by_cases h2 : t = ""
          · subst h2; rfl
          · simp [pyOr, truthy, first_nonempty, h2]
      · simp [pyOr, truthy, first_nonempty, h]
  have main : resolved_type efs = Except.ok (spec_transport_type ty tt) := by
    rw [resolved_type, key]
    rfl
  have hstdio : ty = none → tt = none → resolved_type efs = Except.ok "stdio" := by
    intro h1 h2
    subst h1; subst h2
    rw [main]
    rfl
  refine ⟨main, hstdio, ?_⟩
  intro cfg fsx amb py target srv ovs h1 h2 h3 h4 h5 h6 h7
  have hty2 := hstdio h3 h4
  simp [build_server_command, h1, h2, pyOr_obj, resolve_entry_obj, h5, hty2, h6, h7]

/-- Claim C10 witness: an entry whose `type` field is the uppercase string
    `"SSE"` resolves to the lowercased spec-side transport type. -/
theorem transport_type_rule_witness :
    resolved_type [("type", JVal.str "SSE")] =
      Except.ok (spec_transport_type (some "SSE") none) :=
  (transport_type_rule [("type", JVal.str "SSE")] (some "SSE") none rfl rfl).1

end McpPipe
